import Mathlib

/-!
Shallow embedding of `src/app.py` (daily_asteroid Telegram bot).

External services (NASA feed, NASA image search, Google translation,
Supabase store, Telegram transport) are modelled as oracle parameters:
each function takes the outcome of its external calls as an argument and
computes what the Python code computes from that outcome.  Python
exceptions raised by an external call are constructors of the oracle
outcome types; an unhandled Python exception in a handler is an explicit
outcome constructor of the handler's result.  `random.choice(l)` is
modelled as indexing by `pick % l.length` for an arbitrary `pick : Nat`.
Float values parsed from the feed payload appear in the code only after
`int(...)` truncation, so asteroid fields are carried as `Int`.
-/

namespace DailyAsteroid

/-- Left-pads the decimal rendering of `n < 1000` to three digits, as the
middle groups of Python's `{x:,}` thousands formatting. -/
def pad3 (n : Nat) : String :=
  if n < 10 then "00" ++ toString n
  else if n < 100 then "0" ++ toString n
  else toString n

/-- Thousands-separated decimal rendering of a natural number, as Python's
`{x:,}` format specifier. -/
def natComma (n : Nat) : String :=
  if _h : n < 1000 then toString n
  else natComma (n / 1000) ++ "," ++ pad3 (n % 1000)
termination_by n
decreasing_by
  exact Nat.div_lt_self (by omega) (by omega)

/-- Thousands-separated rendering of an integer, as Python's `f"{int(x):,}"`. -/
def intComma (i : Int) : String :=
  if i < 0 then "-" ++ natComma i.natAbs else natComma i.natAbs

/-- One asteroid record from the NEO feed, holding the fields the code
reads: `name`, and the truncated `miss_distance.kilometers` and
`relative_velocity.kilometers_per_hour` values. -/
structure Asteroid where
  name : String
  distancia : Int
  velocidade : Int
deriving DecidableEq, Repr

/-- Body of a 200 feed response: either the accesses
`data["near_earth_objects"][hoje]` / asteroid field reads raise (missing
key, unparsable number), or they yield the day's asteroid list. -/
inductive FeedBody where
  | malformed
  | asteroids (lst : List Asteroid)
deriving DecidableEq, Repr

/-- Outcome of the NEO feed query: the request (or `res.json()`) raised,
or a response arrived with a status code and a body. -/
inductive FeedOutcome where
  | exc
  | resp (status : Nat) (body : FeedBody)
deriving DecidableEq, Repr

/-- Outcome of one translation call: `.error e` when
`GoogleTranslator(...).translate` raises, `.ok t` when it returns `t`. -/
abbrev TrOracle := String → Except String String

/-- `traduzir`: translate `texto`, fall back to `texto` itself when the
translation call raises (src/app.py lines 75-80). -/
def traduzir (texto : String) (tr : TrOracle) : String :=
  match tr texto with
  | .ok t => t
  | .error _ => texto

/-- `msg_original`: the templated English message built in
`get_asteroid_message` (src/app.py lines 122-127). -/
def msg_original (a : Asteroid) : String :=
  "🌍 Asteroide próximo da Terra! 🌠\n\n" ++
  "Nome: " ++ a.name ++ "\n" ++
  "Distância aproximada: " ++ intComma a.distancia ++ " km\n" ++
  "Velocidade: " ++ intComma a.velocidade ++ " km/h\n\n"

/-- `random.choice` on a non-empty asteroid list, indexed by `pick`. -/
def chooseAsteroid (a : Asteroid) (rest : List Asteroid) (pick : Nat) : Asteroid :=
  (a :: rest).get ⟨pick % (a :: rest).length, Nat.mod_lt _ (by simp)⟩

/-- `get_asteroid_message` (src/app.py lines 102-131): fetch today's NEO
feed, pick a random asteroid, format and translate the message; every
failure path returns a fixed fallback string.  Total: the Python
function catches every exception of its body. -/
def get_asteroid_message (fo : FeedOutcome) (pick : Nat) (tr : TrOracle) : String :=
  match fo with
  | .exc => "Erro ao processar dados do asteroide."
  | .resp status body =>
    if status ≠ 200 then "Erro ao buscar dados da NASA."
    else
      match body with
      | .malformed => "Erro ao processar dados do asteroide."
      | .asteroids [] => "Nenhum asteroide próximo hoje 😴"
      | .asteroids (a :: rest) => traduzir (msg_original (chooseAsteroid a rest pick)) tr

/-- The fixed keyword set of `imagem_espacial_aleatoria`
(src/app.py line 85); the chosen keyword only parametrises the upstream
query, so it does not appear in the modelled result. -/
def imageKeywords : List String :=
  ["galaxy", "nebula", "saturn", "jupiter", "apollo", "earth", "star", "sun",
   "planet", "asteroid", "space"]

/-- One item of the image-search result: the optional `"links"` key, whose
entries carry an optional `"href"` key (a missing key raises in Python). -/
structure ImgItem where
  links : Option (List (Option String))
deriving DecidableEq, Repr

/-- Outcome of the image-search query: the request (or parsing) raised, or
a response arrived with a status code and the
`collection.items` list (missing keys default to `[]` via `.get`). -/
inductive ImgOutcome where
  | exc
  | resp (status : Nat) (items : List ImgItem)
deriving DecidableEq, Repr

/-- `imagem_espacial_aleatoria` (src/app.py lines 83-99): query the image
API, pick a random item and return its first link; `none` on any failure.
Total: the Python function catches every exception of its body. -/
def imagem_espacial_aleatoria (oc : ImgOutcome) (pick : Nat) : Option String :=
  match oc with
  | .exc => none
  | .resp status items =>
    if status ≠ 200 then none
    else
      match items with
      | [] => none
      | i :: rest =>
        let item := (i :: rest).get ⟨pick % (i :: rest).length, Nat.mod_lt _ (by simp)⟩
        match item.links with
        | none => none
        | some ls =>
          match ls.head? with
          | none => none
          | some none => none
          | some (some href) => some href

/-- One log entry produced by `send_message`: the missing-context log
line, or the per-recipient transport-error log line. -/
inductive LogEntry where
  | noContext
  | sendError (chat_id : Int) (err : String)
deriving DecidableEq, Repr

/-- The fixed disclaimer appended to the caption of a captioned image
(src/app.py line 143). -/
def notaDisclaimer : String :=
  "\n\n*Nota:* A imagem enviada NÃO tem relação direta com o asteroide, é só uma foto aleatória do espaço."

/-- A Telegram send attempt: `send_photo` with a caption, or
`send_message` with plain text. -/
inductive SendAction where
  | photo (chat_id : Int) (photoUrl : String) (caption : String)
  | message (chat_id : Int) (text : String)
deriving DecidableEq, Repr

/-- Outcome of the one Telegram transport call made by `send_message`:
`.error e` when `send_photo`/`send_message` raises, `.ok ()` otherwise. -/
abbrev Transport := Except String Unit

/-- `send_message` (src/app.py lines 134-148): returns the attempted send
payload (none when no context was supplied, so nothing was sent) and the
log entries it wrote.  Total: the Python function catches every
exception of the transport call. -/
def send_message (chat_id : Int) (text : String) (imagem : Option String)
    (hasContext : Bool) (transport : Transport) : Option SendAction × List LogEntry :=
  if hasContext = false then (none, [.noContext])
  else
    let action :=
      match imagem with
      | some img => SendAction.photo chat_id img (text ++ notaDisclaimer)
      | none => SendAction.message chat_id text
    match transport with
    | .ok _ => (some action, [])
    | .error e => (some action, [.sendError chat_id e])

/-- `add_subscriber` (src/app.py lines 51-55): insert `chat_id` into the
subscribers table; a raising insert (`ok = false`) is logged and
swallowed, leaving the store unchanged. -/
def add_subscriber (ok : Bool) (chat_id : Int) (store : List Int) : List Int :=
  if ok then store ++ [chat_id] else store

/-- `remove_subscriber` (src/app.py lines 59-63): delete every row whose
`chat_id` matches; a raising delete (`ok = false`) is logged and
swallowed, leaving the store unchanged. -/
def remove_subscriber (ok : Bool) (chat_id : Int) (store : List Int) : List Int :=
  if ok then store.filter (fun c => c != chat_id) else store

/-- `get_subscribers` (src/app.py lines 66-72): list all subscribed chat
ids; a raising select (`ok = false`) is logged and yields `[]`. -/
def get_subscribers (ok : Bool) (store : List Int) : List Int :=
  if ok then store else []

/-- One job registered with `job_queue.run_daily` (src/app.py lines
171-176); every job's callback is `send_periodic_message`.  `time(hour=10,
minute=00, tzinfo=timezone(timedelta(hours=-3)))` is carried as the
`hour`/`minute`/`tzHours` fields. -/
structure Job where
  name : String
  hour : Nat
  minute : Nat
  tzHours : Int
  data : Int
deriving DecidableEq, Repr

/-- The shared mutable state the handlers touch: the Supabase
`subscribers` table and the job queue's registered jobs. -/
structure BotState where
  store : List Int
  jobs : List Job
deriving DecidableEq, Repr

/-- Outcomes of the external calls one `start` invocation makes. -/
structure StartOracles where
  addOk : Bool
  fo : FeedOutcome
  pick : Nat
  imgOut : ImgOutcome
  ipick : Nat
  tr : TrOracle
  transport : Transport

/-- What one `start` invocation produced: the new shared state, the
`reply_text` replies sent to the invoking chat, and the payload of the
immediate `send_message` call (none when that call was never reached). -/
structure StartResult where
  state : BotState
  replies : List String
  sent : Option SendAction

/-- `start` handler (src/app.py lines 151-176): store the subscriber;
if the job queue is unavailable, log, reply with the explicit error and
return; otherwise fetch and send the immediate message, reply with the
confirmation, and register the daily job named `str(chat_id)`. -/
def start (chat_id : Int) (jqAvail : Bool) (oc : StartOracles) (st : BotState) : StartResult :=
  let store1 := add_subscriber oc.addOk chat_id st.store
  if jqAvail = false then
    { state := { st with store := store1 },
      replies := ["Erro: JobQueue não configurado. Contate o administrador."],
      sent := none }
  else
    let mensagem := get_asteroid_message oc.fo oc.pick oc.tr
    let imagem := imagem_espacial_aleatoria oc.imgOut oc.ipick
    let sm := send_message chat_id mensagem imagem true oc.transport
    { state :=
        { store := store1,
          jobs := st.jobs ++ [{ name := toString chat_id, hour := 10, minute := 0,
                                tzHours := -3, data := chat_id }] },
      replies := ["Bot iniciado! Você receberá atualizações sobre asteroides diariamente às 10h (horário de Brasília)."],
      sent := sm.1 }

/-- How one `stop` invocation ended: normally with a reply, or with the
unhandled `AttributeError` raised by `context.job_queue.get_jobs_by_name`
when `job_queue` is `None`. -/
inductive StopOutcome where
  | raisedAttrError
  | confirmed
  | noActive
deriving DecidableEq, Repr

/-- What one `stop` invocation produced. -/
structure StopResult where
  state : BotState
  replies : List String
  outcome : StopOutcome
deriving DecidableEq, Repr

/-- `stop` handler (src/app.py lines 179-189): if `chat_id` is in the
subscriber list, remove it from the store, then cancel every job named
`str(chat_id)` and reply with the confirmation — but the job-queue access
is unguarded, so with `job_queue = None` the handler raises right after
the store removal; if `chat_id` is absent, reply that nothing is active
and change nothing. -/
def stop (chat_id : Int) (jqAvail : Bool) (listOk removeOk : Bool) (st : BotState) : StopResult :=
  if chat_id ∈ get_subscribers listOk st.store then
    let store1 := remove_subscriber removeOk chat_id st.store
    if jqAvail = false then
      { state := { st with store := store1 }, replies := [], outcome := .raisedAttrError }
    else
      { state := { store := store1,
                   jobs := st.jobs.filter (fun j => j.name != toString chat_id) },
        replies := ["Envios diários desativados. Use /start para reativar."],
        outcome := .confirmed }
  else
    { state := st,
      replies := ["Nenhum envio diário ativo para este chat."],
      outcome := .noActive }

/-- `send_periodic_message` (src/app.py lines 192-196): one daily tick for
the job's bound `chat_id`. -/
def send_periodic_message (chat_id : Int) (fo : FeedOutcome) (pick : Nat)
    (imgOut : ImgOutcome) (ipick : Nat) (tr : TrOracle) (transport : Transport) :
    Option SendAction × List LogEntry :=
  send_message chat_id (get_asteroid_message fo pick tr)
    (imagem_espacial_aleatoria imgOut ipick) true transport

/-- The enumerated upstream failure outcomes of `get_asteroid_message`:
a raising request/parse, a malformed payload, a non-success status, an
empty asteroid list for the day, or a failing translation call. -/
def feedUpstreamFailure (fo : FeedOutcome) (pick : Nat) (tr : TrOracle) : Prop :=
  match fo with
  | .exc => True
  | .resp _ .malformed => True
  | .resp _ (.asteroids []) => True
  | .resp status (.asteroids (a :: rest)) =>
      status ≠ 200 ∨ (tr (msg_original (chooseAsteroid a rest pick))).toOption = none

/-- A translation oracle whose every call raises. -/
def trFail : TrOracle := fun _ => Except.error "falha na tradução"

theorem msg_original_length_pos (a : Asteroid) : 0 < (msg_original a).length := by
  have h1 : 0 < ("🌍 Asteroide próximo da Terra! 🌠\n\n" : String).length := by decide
  unfold msg_original
  simp only [String.length_append]
  omega

/-- C3: for every upstream failure outcome (raising request, non-success
status, malformed payload, empty asteroid list, or failing translation),
`get_asteroid_message` returns a non-empty string.  It never returns
`none` and never raises: its result type is `String` and it is total,
mirroring the broad `try/except` of src/app.py lines 103-131. -/
theorem asteroid_text_nonempty_on_failure (fo : FeedOutcome) (pick : Nat) (tr : TrOracle)
    (h : feedUpstreamFailure fo pick tr) :
    0 < (get_asteroid_message fo pick tr).length := by
  cases fo with
  | exc =>
    have hres : get_asteroid_message .exc pick tr
        = "Erro ao processar dados do asteroide." := rfl
    rw [hres]; decide
  | resp status body =>
    by_cases h200 : status = 200
    · subst h200
      cases body with
      | malformed =>
        have hres : get_asteroid_message (.resp 200 .malformed) pick tr
            = "Erro ao processar dados do asteroide." := rfl
        rw [hres]; decide
      | asteroids lst =>
        cases lst with
        | nil =>
          have hres : get_asteroid_message (.resp 200 (.asteroids [])) pick tr
              = "Nenhum asteroide próximo hoje 😴" := rfl
          rw [hres]; decide
        | cons a rest =>
          rcases h with h | h
          · exact absurd rfl h
          · have hres : get_asteroid_message (.resp 200 (.asteroids (a :: rest))) pick tr
                = traduzir (msg_original (chooseAsteroid a rest pick)) tr := by
              simp [get_asteroid_message]
            rw [hres]
            unfold traduzir
            cases htr : tr (msg_original (chooseAsteroid a rest pick)) with
            | ok t => rw [htr] at h; simp [Except.toOption] at h
            | error e => exact msg_original_length_pos _
    · have hres : get_asteroid_message (.resp status body) pick tr
          = "Erro ao buscar dados da NASA." := by
        simp [get_asteroid_message, h200]
      rw [hres]
      decide

theorem asteroid_text_nonempty_on_failure_witness :
    feedUpstreamFailure .exc 0 trFail ∧ 0 < (get_asteroid_message .exc 0 trFail).length :=
  ⟨trivial, asteroid_text_nonempty_on_failure .exc 0 trFail trivial⟩

/-- The image query failed (raised or non-success status) or returned an
empty result set. -/
def imageQueryFailsOrEmpty (oc : ImgOutcome) : Prop :=
  match oc with
  | .exc => True
  | .resp status items => status ≠ 200 ∨ items = []

/-- C4: whenever the image query fails (non-success status or exception)
or the result set is empty, `imagem_espacial_aleatoria` returns `none`.
It returns `Option String` and is total, so it yields either a URL string
or `none` and never raises, mirroring the broad `try/except` of
src/app.py lines 84-99. -/
theorem image_none_on_failure_or_empty (oc : ImgOutcome) (pick : Nat)
    (h : imageQueryFailsOrEmpty oc) :
    imagem_espacial_aleatoria oc pick = none := by
  cases oc with
  | exc => rfl
  | resp status items =>
    rcases h with h | rfl
    · simp [imagem_espacial_aleatoria, h]
    · by_cases hs : status = 200
      · subst hs; rfl
      · simp [imagem_espacial_aleatoria, hs]

theorem image_none_on_failure_or_empty_witness :
    imageQueryFailsOrEmpty .exc ∧ imagem_espacial_aleatoria .exc 0 = none :=
  ⟨trivial, image_none_on_failure_or_empty .exc 0 trivial⟩

/-- C5: when the transport call raises, `send_message` writes exactly the
one error log entry naming that recipient.  `send_message` is total over
every transport outcome, mirroring the `try/except` of src/app.py lines
138-148 that catches any transport exception: it never raises. -/
theorem deliver_failure_logs_one_entry (chat_id : Int) (text : String)
    (imagem : Option String) (e : String) :
    (send_message chat_id text imagem true (.error e)).2 = [LogEntry.sendError chat_id e] := by
  cases imagem <;> rfl

/-- C6: a successful feed response carrying zero asteroids for the day
yields the fixed fallback string, for every translation oracle — the
fallback never passes through the translation step. -/
theorem zero_asteroids_fixed_fallback (pick : Nat) (tr : TrOracle) :
    get_asteroid_message (.resp 200 (.asteroids [])) pick tr
      = "Nenhum asteroide próximo hoje 😴" := rfl

/-- C9: with an image present, the payload `send_message` attempts is a
captioned photo whose caption is the text followed by the fixed
disclaimer; with no image, it is the plain text message. -/
theorem deliver_payload_shape (chat_id : Int) (text : String) (transport : Transport) :
    (∀ u : String, (send_message chat_id text (some u) true transport).1
        = some (SendAction.photo chat_id u (text ++ notaDisclaimer))) ∧
    (send_message chat_id text none true transport).1
        = some (SendAction.message chat_id text) := by
  constructor
  · intro u
    cases transport <;> rfl
  · cases transport <;> rfl

/-- C8: a subscribe with the job queue available registers exactly one new
job: it is named `str(chat_id)` (so `stop` can find it by name), fires
daily at 10:00 in the UTC-3 timezone, and is bound to the chat id. -/
theorem subscribe_registers_daily_job (chat_id : Int) (oc : StartOracles) (st : BotState) :
    (start chat_id true oc st).state.jobs
      = st.jobs ++ [{ name := toString chat_id, hour := 10, minute := 0,
                      tzHours := -3, data := chat_id }] := rfl

/-- A concrete set of oracle outcomes: the store insert succeeds, both
upstream queries raise, translation raises, the transport succeeds. -/
def oraclesW : StartOracles :=
  { addOk := true, fo := .exc, pick := 0, imgOut := .exc, ipick := 0,
    tr := trFail, transport := .ok () }

/-- C2: a subscribe with everything available followed by an unsubscribe
leaves the chat id absent from the subscriber list and leaves no job
named `str(chat_id)` — for any prior state, since `remove_subscriber`
deletes every matching row and `stop` cancels every job with that name. -/
theorem subscribe_unsubscribe_roundtrip (chat_id : Int) (oc : StartOracles) (st : BotState)
    (hAdd : oc.addOk = true) :
    chat_id ∉ get_subscribers true
        (stop chat_id true true true (start chat_id true oc st).state).state.store ∧
    ∀ j ∈ (stop chat_id true true true (start chat_id true oc st).state).state.jobs,
      j.name ≠ toString chat_id := by
  have hstate : (start chat_id true oc st).state =
      { store := st.store ++ [chat_id],
        jobs := st.jobs ++ [{ name := toString chat_id, hour := 10, minute := 0,
                              tzHours := -3, data := chat_id }] } := by
    simp [start, add_subscriber, hAdd]
  rw [hstate]
  have hmem : chat_id ∈ get_subscribers true (st.store ++ [chat_id]) := by
    simp [get_subscribers]
  have hs : stop chat_id true true true
      { store := st.store ++ [chat_id],
        jobs := st.jobs ++ [{ name := toString chat_id, hour := 10, minute := 0,
                              tzHours := -3, data := chat_id }] } =
      { state :=
          { store := (st.store ++ [chat_id]).filter (fun c => c != chat_id),
            jobs := (st.jobs ++ [({ name := toString chat_id, hour := 10, minute := 0,
                                    tzHours := -3, data := chat_id } : Job)]).filter
                      (fun j => j.name != toString chat_id) },
        replies := ["Envios diários desativados. Use /start para reativar."],
        outcome := .confirmed } := by
    unfold stop
    rw [if_pos hmem]
    rfl
  rw [hs]
  constructor
  · simp [get_subscribers, List.mem_filter]
  · intro j hj
    rw [List.mem_filter] at hj
    simpa using hj.2

theorem subscribe_unsubscribe_roundtrip_witness :
    oraclesW.addOk = true ∧
    ((7 : Int) ∉ get_subscribers true
        (stop 7 true true true (start 7 true oraclesW { store := [], jobs := [] }).state).state.store ∧
     ∀ j ∈ (stop 7 true true true
        (start 7 true oraclesW { store := [], jobs := [] }).state).state.jobs,
       j.name ≠ toString (7 : Int)) :=
  ⟨rfl, subscribe_unsubscribe_roundtrip 7 oraclesW { store := [], jobs := [] } rfl⟩

/-- The C1 claim as stated: when the job queue is unavailable, a
subscribe stores the subscriber, replies with the explicit
scheduler-unavailable error, registers no job, and still performs the
immediate `send_message` delivery. -/
def subscribeSchedulerUnavailableClaim : Prop :=
  ∀ (chat_id : Int) (oc : StartOracles) (st : BotState), oc.addOk = true →
    chat_id ∈ (start chat_id false oc st).state.store ∧
    (start chat_id false oc st).replies
      = ["Erro: JobQueue não configurado. Contate o administrador."] ∧
    (start chat_id false oc st).state.jobs = st.jobs ∧
    (start chat_id false oc st).sent ≠ none

/-- C1 counterexample: the claim as stated is false — at chat id 12345
with a succeeding store insert, the handler returns right after the
error reply, so no immediate `send_message` delivery is attempted
(`sent = none`), contradicting the last conjunct. -/
theorem subscribe_scheduler_unavailable_cex : ¬ subscribeSchedulerUnavailableClaim := by
  intro h
  exact (h 12345 oraclesW { store := [], jobs := [] } rfl).2.2.2 rfl

/-- C1 amended: when the job queue is unavailable, a subscribe stores the
subscriber, replies with the explicit scheduler-unavailable error,
registers no job, and does NOT perform the immediate fetch+deliver — the
handler returns before reaching it (src/app.py lines 156-160 precede
lines 162-165). -/
theorem subscribe_scheduler_unavailable (chat_id : Int) (oc : StartOracles) (st : BotState)
    (hAdd : oc.addOk = true) :
    chat_id ∈ (start chat_id false oc st).state.store ∧
    (start chat_id false oc st).replies
      = ["Erro: JobQueue não configurado. Contate o administrador."] ∧
    (start chat_id false oc st).state.jobs = st.jobs ∧
    (start chat_id false oc st).sent = none := by
  refine ⟨?_, rfl, rfl, rfl⟩
  simp [start, add_subscriber, hAdd]

theorem subscribe_scheduler_unavailable_witness :
    oraclesW.addOk = true ∧
    ((12345 : Int) ∈ (start 12345 false oraclesW { store := [], jobs := [] }).state.store ∧
     (start 12345 false oraclesW { store := [], jobs := [] }).replies
       = ["Erro: JobQueue não configurado. Contate o administrador."] ∧
     (start 12345 false oraclesW { store := [], jobs := [] }).state.jobs = [] ∧
     (start 12345 false oraclesW { store := [], jobs := [] }).sent = none) :=
  ⟨rfl, subscribe_scheduler_unavailable 12345 oraclesW { store := [], jobs := [] } rfl⟩

/-- C7: an unsubscribe for a chat id absent from the current subscriber
list replies that no daily sending is active and mutates nothing: the
whole result state is the input state, for every job-queue availability
and store-operation outcome. -/
theorem unsubscribe_absent_noop (chat_id : Int) (jqAvail listOk removeOk : Bool) (st : BotState)
    (h : chat_id ∉ get_subscribers listOk st.store) :
    stop chat_id jqAvail listOk removeOk st =
      { state := st,
        replies := ["Nenhum envio diário ativo para este chat."],
        outcome := .noActive } := by
  unfold stop
  rw [if_neg h]

theorem unsubscribe_absent_noop_witness :
    (999 : Int) ∉ get_subscribers true [1] ∧
    stop 999 true true true { store := [1], jobs := [] } =
      { state := { store := [1], jobs := [] },
        replies := ["Nenhum envio diário ativo para este chat."],
        outcome := .noActive } :=
  ⟨by decide, unsubscribe_absent_noop 999 true true true { store := [1], jobs := [] } (by decide)⟩

/-- C10: an unsubscribe for a currently subscribed chat id with the job
queue absent first removes the id from the store, then hits the
unguarded `context.job_queue.get_jobs_by_name` and raises — before any
job cancellation and before any reply.  Unlike `start`, `stop` does not
guard the job-queue access. -/
theorem unsubscribe_jobqueue_missing_raises (chat_id : Int) (st : BotState)
    (h : chat_id ∈ st.store) :
    (stop chat_id false true true st).outcome = .raisedAttrError ∧
    (stop chat_id false true true st).state.store = st.store.filter (fun c => c != chat_id) ∧
    (stop chat_id false true true st).state.jobs = st.jobs ∧
    (stop chat_id false true true st).replies = [] := by
  have hmem : chat_id ∈ get_subscribers true st.store := by
    simpa [get_subscribers] using h
  have hs : stop chat_id false true true st =
      { state := { st with store := st.store.filter (fun c => c != chat_id) },
        replies := [], outcome := .raisedAttrError } := by
    unfold stop
    rw [if_pos hmem]
    rfl
  rw [hs]
  exact ⟨rfl, rfl, rfl, rfl⟩

/-- A concrete registered daily job for chat id 5. -/
def jobW : Job := { name := "5", hour := 10, minute := 0, tzHours := -3, data := 5 }

theorem unsubscribe_jobqueue_missing_witness :
    (5 : Int) ∈ ([5] : List Int) ∧
    ((stop 5 false true true { store := [5], jobs := [jobW] }).outcome = .raisedAttrError ∧
     (stop 5 false true true { store := [5], jobs := [jobW] }).state.store
       = ([5] : List Int).filter (fun c => c != 5) ∧
     (stop 5 false true true { store := [5], jobs := [jobW] }).state.jobs = [jobW] ∧
     (stop 5 false true true { store := [5], jobs := [jobW] }).replies = []) :=
  ⟨by decide, unsubscribe_jobqueue_missing_raises 5 { store := [5], jobs := [jobW] } (by decide)⟩

end DailyAsteroid
